import Mathlib

/- Shallow embedding of the metric styling, formatting, interaction and
refresh logic of site/app.js from the sfex-surf-conditions repository.
JavaScript values reaching this code (feature property bags, ids, fetched
JSON documents) are modelled by the inductive type JVal; host behaviour
that the code merely calls through (Date rendering, the map object) is
passed in as explicit parameters. -/

set_option maxRecDepth 16384

namespace SurfMap

/-- JavaScript values as they occur in the property bags and JSON documents
handled by site/app.js: null, undefined, NaN, finite numbers, strings and
plain objects (association lists). -/
inductive JVal where
  | jnull : JVal
  | jundef : JVal
  | jnan : JVal
  | jnum : ℚ → JVal
  | jstr : String → JVal
  | jobj : List (String × JVal) → JVal

open JVal

/-- JavaScript truthiness of a JVal. -/
def truthy : JVal → Bool
  | jnull => false
  | jundef => false
  | jnan => false
  | jnum q => !(q == 0)
  | jstr s => !(s == "")
  | jobj _ => true

/-- Strict equality (===) on JVal. NaN is not equal to itself. Two object
values compare by reference in JavaScript; the handlers in app.js only ever
compare object references produced by distinct event payloads, so object
against object is false here. -/
def jsEq : JVal → JVal → Bool
  | jnull, jnull => true
  | jundef, jundef => true
  | jnum a, jnum b => a == b
  | jstr a, jstr b => a == b
  | _, _ => false

/-- The JavaScript expression a logical-or b, returning a when truthy and b otherwise. -/
def jsOr (a b : JVal) : JVal := if truthy a then a else b

/-- Property access with optional chaining, as in p?.id: lookup on an object,
undefined on every non-object (the property names used by app.js do not exist
on primitive wrappers). -/
def jGet : JVal → String → JVal
  | jobj fs, k => (fs.lookup k).getD jundef
  | jnull, _ => jundef
  | jundef, _ => jundef
  | jnan, _ => jundef
  | jnum _, _ => jundef
  | jstr _, _ => jundef

/-- Rendering of a finite JavaScript number to a string, for template-literal
interpolation. Integers print as integers; a rational with a power-of-ten
denominator prints as a finite decimal, matching the JavaScript rendering of
the decimal values that occur in this data. -/
def jsNumToString (q : ℚ) : String :=
  if q.den = 1 then toString q.num
  else
    match (List.range 21).find? (fun k => decide (q.den ∣ 10 ^ k)) with
    | some k =>
        let scaled := q.num.natAbs * (10 ^ k / q.den)
        let ds := Nat.toDigits 10 scaled
        let padded := List.replicate (k + 1 - ds.length) '0' ++ ds
        (if q.num < 0 then "-" else "")
          ++ String.mk (padded.take (padded.length - k))
          ++ "." ++ String.mk (padded.drop (padded.length - k))
    | none => toString q

/-- Template-literal string conversion of a JVal. -/
def jsToString : JVal → String
  | jnull => "null"
  | jundef => "undefined"
  | jnan => "NaN"
  | jnum q => jsNumToString q
  | jstr s => s
  | jobj _ => "[object Object]"

/-- The test v === null or v === undefined or Number.isNaN(v) guarding the
placeholder branch of fmtMaybe in app.js. Number.isNaN does not coerce, so it
holds for the NaN number only. -/
def isMissingVal : JVal → Bool
  | jnull => true
  | jundef => true
  | jnan => true
  | jnum _ => false
  | jstr _ => false
  | jobj _ => false

/-- fmtMaybe from app.js: the placeholder glyph for null, undefined and NaN,
otherwise the interpolated value followed by the suffix. -/
def fmtMaybe (v : JVal) (suffix : String) : String :=
  if isMissingVal v then "—" else jsToString v ++ suffix

/-- One entry of a legend block in METRIC_STYLES. -/
structure LegendItem where
  label : String
  color : String
deriving DecidableEq

/-- Legend metadata of a metric style. -/
structure Legend where
  title : String
  note : Option String
  items : List LegendItem
deriving DecidableEq

/-- One value of the METRIC_STYLES registry in app.js. -/
structure MetricStyle where
  stops : List ℚ
  colors : List String
  defaultValue : ℚ
  legend : Legend
deriving DecidableEq

/-- The qualityScore entry of METRIC_STYLES. -/
def qualityScoreStyle : MetricStyle :=
  { stops := [35, 55, 75]
    colors := ["#e2554f", "#f0c24b", "#2fb95c", "#1bb7a6"]
    defaultValue := 0
    legend :=
      { title := "Quality score (0-100)"
        note := some "Blend of swell (50), wind (30), and tide (20)."
        items :=
          [⟨"Poor (0-35)", "#e2554f"⟩, ⟨"Fair (35-55)", "#f0c24b"⟩,
           ⟨"Good (55-75)", "#2fb95c"⟩, ⟨"Great (75+)", "#1bb7a6"⟩] } }

/-- The waveHeightFt entry of METRIC_STYLES. -/
def waveHeightFtStyle : MetricStyle :=
  { stops := [1, 3, 5, 8, 12]
    colors := ["#5b2b7a", "#2f4ba0", "#1e88a8", "#2fb95c", "#f0c24b", "#e2554f"]
    defaultValue := 0
    legend :=
      { title := "Wave height (ft)"
        note := none
        items :=
          [⟨"< 1 ft", "#5b2b7a"⟩, ⟨"1-3 ft", "#2f4ba0"⟩, ⟨"3-5 ft", "#1e88a8"⟩,
           ⟨"5-8 ft", "#2fb95c"⟩, ⟨"8-12 ft", "#f0c24b"⟩, ⟨"12+ ft", "#e2554f"⟩] } }

/-- The windSuitability entry of METRIC_STYLES; the decimal literals 0.2, 0.5,
0.8 are written via mkRat. -/
def windSuitabilityStyle : MetricStyle :=
  { stops := [mkRat 2 10, mkRat 5 10, mkRat 8 10]
    colors := ["#e2554f", "#f0c24b", "#2fb95c", "#1bb7a6"]
    defaultValue := mkRat 5 10
    legend :=
      { title := "Wind suitability"
        note := some "1 = light offshore, 0 = strong onshore."
        items :=
          [⟨"Poor (0-0.2)", "#e2554f"⟩, ⟨"OK (0.2-0.5)", "#f0c24b"⟩,
           ⟨"Good (0.5-0.8)", "#2fb95c"⟩, ⟨"Great (0.8+)", "#1bb7a6"⟩] } }

/-- The tideHeightFt entry of METRIC_STYLES. -/
def tideHeightFtStyle : MetricStyle :=
  { stops := [1, 3, 5, 7]
    colors := ["#2f4ba0", "#1e88a8", "#2fb95c", "#f0c24b", "#e2554f"]
    defaultValue := 0
    legend :=
      { title := "Tide height (ft)"
        note := none
        items :=
          [⟨"< 1 ft", "#2f4ba0"⟩, ⟨"1-3 ft", "#1e88a8"⟩, ⟨"3-5 ft", "#2fb95c"⟩,
           ⟨"5-7 ft", "#f0c24b"⟩, ⟨"7+ ft", "#e2554f"⟩] } }

/-- The METRIC_STYLES registry of app.js, as an association list in source
order. -/
def METRIC_STYLES : List (String × MetricStyle) :=
  [("qualityScore", qualityScoreStyle),
   ("waveHeightFt", waveHeightFtStyle),
   ("windSuitability", windSuitabilityStyle),
   ("tideHeightFt", tideHeightFtStyle)]

/-- Registry lookup, METRIC_STYLES[m]. -/
def lookupStyle (k : String) : Option MetricStyle := METRIC_STYLES.lookup k

/-- The compiled Mapbox expression built by qualityColorExpression: a step
function over the coalesce of the named property with a fallback value, a base
color, and an ascending list of threshold and color pairs. -/
structure StepExpr where
  prop : String
  fallback : ℚ
  base : String
  stops : List (ℚ × String)

/-- qualityColorExpression from app.js: resolve the metric key with the falsy
fallback to qualityScore, resolve the style with the registry fallback, and
assemble the step expression pairing each stop with the color at the next
index. -/
def qualityColorExpression (metric : JVal) : StepExpr :=
  let m := jsOr metric (JVal.jstr "qualityScore")
  let style := (lookupStyle (jsToString m)).getD qualityScoreStyle
  { prop := jsToString m
    fallback := style.defaultValue
    base := style.colors.headD ""
    stops := style.stops.enum.map (fun ix => (ix.2, style.colors.getD (ix.1 + 1) "")) }

/-- The coalesce of the fetched property with the style default: null and
undefined (an absent property) are replaced by the default value. -/
def coalesceInput (raw : JVal) (dflt : ℚ) : JVal :=
  match raw with
  | JVal.jnull => JVal.jnum dflt
  | JVal.jundef => JVal.jnum dflt
  | JVal.jnan => JVal.jnan
  | JVal.jnum q => JVal.jnum q
  | JVal.jstr s => JVal.jstr s
  | JVal.jobj fs => JVal.jobj fs

/-- Evaluation of a Mapbox step expression on a numeric input: the base output
below the first stop, otherwise the output of the last stop not exceeding the
input (stops are ascending). -/
def stepSelect (base : String) : List (ℚ × String) → ℚ → String
  | [], _ => base
  | (s, c) :: rest, v => if v < s then base else stepSelect c rest v

/-- Evaluation of the compiled expression on a property bag: fetch the
property, coalesce with the fallback, and run the step selection; a
non-numeric input is a Mapbox expression type error, returned as none. -/
def evalStep (e : StepExpr) (props : JVal) : Option String :=
  match coalesceInput (jGet props e.prop) e.fallback with
  | JVal.jnum q => some (stepSelect e.base e.stops q)
  | JVal.jnull => none
  | JVal.jundef => none
  | JVal.jnan => none
  | JVal.jstr _ => none
  | JVal.jobj _ => none

/-- Specification-side band selection, following the words of the claim: the
color of the band whose lower threshold is the greatest threshold not
exceeding the value, and the first color when the value is below all
thresholds. With strictly increasing thresholds, the index of that band is the
number of thresholds not exceeding the value. -/
def specBandColor (style : MetricStyle) (v : ℚ) : String :=
  style.colors.getD ((style.stops.filter (fun s => s ≤ v)).length) ""

/-- Step evaluation with sorted stops agrees with counting the stops not
exceeding the input. -/
theorem stepSelect_eq_count (pairs : List (ℚ × String)) :
    ∀ (base : String) (v : ℚ),
      List.Pairwise (· < ·) (pairs.map Prod.fst) →
      stepSelect base pairs v
        = (base :: pairs.map Prod.snd).getD
            ((pairs.map Prod.fst).filter (fun s => s ≤ v)).length "" := by
  induction pairs with
  | nil => intro base v _; simp [stepSelect]
  | cons hd tl ih =>
      intro base v hsorted
      obtain ⟨s, c⟩ := hd
      simp only [List.map_cons, List.pairwise_cons] at hsorted
      by_cases hv : v < s
      · have h1 : ¬ (s ≤ v) := not_le.mpr hv
        have h2 : (tl.map Prod.fst).filter (fun x => x ≤ v) = [] := by
          apply List.filter_eq_nil_iff.mpr
          intro x hx
          simpa using not_le.mpr (lt_trans hv (hsorted.1 x hx))
        simp [stepSelect, hv, List.filter_cons, h1, h2]
      · have hs : s ≤ v := le_of_not_lt hv
        have := ih c v hsorted.2
        simp [stepSelect, hv, List.filter_cons, hs, this]

/-- Helper relating a compiled step expression for key k to the band selection
of a style: when the expression carries the colors and stops of the style, the
evaluation on any property bag agrees with the specification-side band
selection, with the default substituted for an absent or null property. -/
theorem evalStep_band (k : String) (style : MetricStyle) (e : StepExpr)
    (he : qualityColorExpression (JVal.jstr k) = e)
    (hprop : e.prop = k)
    (hsorted : List.Pairwise (· < ·) (e.stops.map Prod.fst))
    (hcols : e.base :: e.stops.map Prod.snd = style.colors)
    (hstops : e.stops.map Prod.fst = style.stops)
    (hfb : e.fallback = style.defaultValue) :
    (∀ (props : JVal) (v : ℚ), jGet props k = JVal.jnum v →
        evalStep (qualityColorExpression (JVal.jstr k)) props
          = some (specBandColor style v))
    ∧ (∀ props : JVal, (jGet props k = JVal.jundef ∨ jGet props k = JVal.jnull) →
        evalStep (qualityColorExpression (JVal.jstr k)) props
          = some (specBandColor style style.defaultValue)) := by
  have hsel : ∀ v : ℚ, stepSelect e.base e.stops v = specBandColor style v := by
    intro v
    rw [stepSelect_eq_count e.stops e.base v hsorted, hcols, hstops]
    rfl
  constructor
  · intro props v hv
    rw [he]
    simp [evalStep, hprop, hv, coalesceInput, hsel v]
  · intro props hv
    rw [he]
    rcases hv with hv | hv <;>
      simp [evalStep, hprop, hv, coalesceInput, hfb, hsel style.defaultValue]

/-- Claim C1: for every metric key in the registry, the compiled color step
function maps a numeric raw value to the color of the band whose lower
threshold is the greatest threshold not exceeding the value, returns the first
color when the value is below all thresholds, and substitutes the style
default value when the property is null or absent; for qualityScore, the
values 20, 35, 54.9 and 75 map to the first, second, second and fourth colors,
and an absent value maps to the color selected for the default value zero. -/
theorem colorStep_correct :
    (∀ (k : String) (style : MetricStyle), (k, style) ∈ METRIC_STYLES →
       (∀ (props : JVal) (v : ℚ), jGet props k = JVal.jnum v →
          evalStep (qualityColorExpression (JVal.jstr k)) props
            = some (specBandColor style v))
       ∧ (∀ props : JVal, (jGet props k = JVal.jundef ∨ jGet props k = JVal.jnull) →
          evalStep (qualityColorExpression (JVal.jstr k)) props
            = some (specBandColor style style.defaultValue)))
    ∧ evalStep (qualityColorExpression (JVal.jstr "qualityScore"))
        (JVal.jobj [("qualityScore", JVal.jnum 20)]) = some "#e2554f"
    ∧ evalStep (qualityColorExpression (JVal.jstr "qualityScore"))
        (JVal.jobj [("qualityScore", JVal.jnum 35)]) = some "#f0c24b"
    ∧ evalStep (qualityColorExpression (JVal.jstr "qualityScore"))
        (JVal.jobj [("qualityScore", JVal.jnum (mkRat 549 10))]) = some "#f0c24b"
    ∧ evalStep (qualityColorExpression (JVal.jstr "qualityScore"))
        (JVal.jobj [("qualityScore", JVal.jnum 75)]) = some "#1bb7a6"
    ∧ evalStep (qualityColorExpression (JVal.jstr "qualityScore"))
        (JVal.jobj []) = some (specBandColor qualityScoreStyle 0)
    ∧ specBandColor qualityScoreStyle 0 = "#e2554f" := by
  refine ⟨?_, by decide, by decide, by decide, by decide, by decide, by decide⟩
  intro k style hmem
  simp only [METRIC_STYLES, List.mem_cons, List.not_mem_nil, or_false,
    Prod.mk.injEq] at hmem
  rcases hmem with ⟨rfl, rfl⟩ | ⟨rfl, rfl⟩ | ⟨rfl, rfl⟩ | ⟨rfl, rfl⟩
  · exact evalStep_band "qualityScore" qualityScoreStyle
      ⟨"qualityScore", 0, "#e2554f", [(35, "#f0c24b"), (55, "#2fb95c"), (75, "#1bb7a6")]⟩
      rfl rfl (by decide) rfl rfl rfl
  · exact evalStep_band "waveHeightFt" waveHeightFtStyle
      ⟨"waveHeightFt", 0, "#5b2b7a",
        [(1, "#2f4ba0"), (3, "#1e88a8"), (5, "#2fb95c"), (8, "#f0c24b"), (12, "#e2554f")]⟩
      rfl rfl (by decide) rfl rfl rfl
  · exact evalStep_band "windSuitability" windSuitabilityStyle
      ⟨"windSuitability", mkRat 5 10, "#e2554f",
        [(mkRat 2 10, "#f0c24b"), (mkRat 5 10, "#2fb95c"), (mkRat 8 10, "#1bb7a6")]⟩
      rfl rfl (by decide) rfl rfl rfl
  · exact evalStep_band "tideHeightFt" tideHeightFtStyle
      ⟨"tideHeightFt", 0, "#2f4ba0",
        [(1, "#1e88a8"), (3, "#2fb95c"), (5, "#f0c24b"), (7, "#e2554f")]⟩
      rfl rfl (by decide) rfl rfl rfl

/-- Claim C1 witness: the registry part applied to waveHeightFt at value 4. -/
theorem colorStep_correct_witness :
    evalStep (qualityColorExpression (JVal.jstr "waveHeightFt"))
        (JVal.jobj [("waveHeightFt", JVal.jnum 4)])
      = some (specBandColor waveHeightFtStyle 4) :=
  (colorStep_correct.1 "waveHeightFt" waveHeightFtStyle (by decide)).1
    (JVal.jobj [("waveHeightFt", JVal.jnum 4)]) 4 rfl

/-- Claim C8: every metric style in the registry has one more color than
thresholds, and its thresholds are strictly increasing. -/
theorem metric_styles_wellformed : ∀ (k : String) (s : MetricStyle),
    (k, s) ∈ METRIC_STYLES →
    s.colors.length = s.stops.length + 1 ∧ List.Pairwise (· < ·) s.stops := by
  intro k s hmem
  simp only [METRIC_STYLES, List.mem_cons, List.not_mem_nil, or_false,
    Prod.mk.injEq] at hmem
  rcases hmem with ⟨rfl, rfl⟩ | ⟨rfl, rfl⟩ | ⟨rfl, rfl⟩ | ⟨rfl, rfl⟩ <;>
    exact ⟨by decide, by decide⟩

/-- Claim C8 witness: the well-formedness instantiated at qualityScore. -/
theorem metric_styles_wellformed_witness :
    qualityScoreStyle.colors.length = qualityScoreStyle.stops.length + 1
    ∧ List.Pairwise (· < ·) qualityScoreStyle.stops :=
  metric_styles_wellformed "qualityScore" qualityScoreStyle (by decide)

/-- Claim C7: the shared helper fmtMaybe renders the placeholder glyph exactly
when the value is null, undefined or NaN, and otherwise renders the value
followed by its unit suffix; a zero value renders as the digit zero plus
suffix, never as the placeholder, and a missing field never renders as blank,
as the digit zero, or as the word undefined. -/
theorem fmtMaybe_placeholder_rule : ∀ (v : JVal) (sfx : String),
    (isMissingVal v = true ↔ (v = JVal.jnull ∨ v = JVal.jundef ∨ v = JVal.jnan))
    ∧ (isMissingVal v = true → fmtMaybe v sfx = "—")
    ∧ (isMissingVal v = false → fmtMaybe v sfx = jsToString v ++ sfx)
    ∧ (fmtMaybe (JVal.jnum 0) sfx = "0" ++ sfx)
    ∧ (fmtMaybe (JVal.jnum 0) sfx ≠ "—")
    ∧ (isMissingVal v = true →
        (fmtMaybe v sfx ≠ "" ∧ fmtMaybe v sfx ≠ "0" ∧ fmtMaybe v sfx ≠ "undefined")) := by
  intro v sfx
  have hzero : fmtMaybe (JVal.jnum 0) sfx = "0" ++ sfx := by
    show (if isMissingVal (JVal.jnum 0) then "—" else jsToString (JVal.jnum 0) ++ sfx) = "0" ++ sfx
    have h0 : jsToString (JVal.jnum 0) = "0" := by decide
    simp [isMissingVal, h0]
  refine ⟨?_, ?_, ?_, hzero, ?_, ?_⟩
  · cases v <;> simp [isMissingVal]
  · intro h
    simp [fmtMaybe, h]
  · intro h
    simp [fmtMaybe, h]
  · rw [hzero]
    intro h
    have hd := congrArg String.data h
    simp [String.data_append] at hd
  · intro h
    have hm : fmtMaybe v sfx = "—" := by simp [fmtMaybe, h]
    rw [hm]
    exact ⟨by decide, by decide, by decide⟩

/-- Claim C7 witness: concrete instantiations of the placeholder rule. -/
theorem fmtMaybe_placeholder_rule_witness :
    fmtMaybe JVal.jnull " ft" = "—" ∧ fmtMaybe (JVal.jnum 0) " ft" = "0 ft" := by
  refine ⟨(fmtMaybe_placeholder_rule JVal.jnull " ft").2.1 (by decide), ?_⟩
  have h := (fmtMaybe_placeholder_rule (JVal.jnum 0) " ft").2.2.2.1
  simpa using h

/-- Whitespace trimmed by the JavaScript string-to-number conversion. -/
def isJsSpace (c : Char) : Bool :=
  c == ' ' || c == '\t' || c == '\n' || c == '\r'

/-- Value of a list of decimal digit characters. -/
def digitsToNat (ds : List Char) : ℕ :=
  ds.foldl (fun a c => 10 * a + (c.toNat - 48)) 0

/-- Parse an unsigned decimal literal: digits, optionally followed by a point
and further digits, with at least one digit overall and nothing left over. -/
def parseUnsigned (cs : List Char) : Option ℚ :=
  let ip := cs.takeWhile Char.isDigit
  let rest := cs.dropWhile Char.isDigit
  match rest with
  | [] => if ip.isEmpty then none else some (mkRat (digitsToNat ip) 1)
  | '.' :: rest2 =>
      let fp := rest2.takeWhile Char.isDigit
      let rest3 := rest2.dropWhile Char.isDigit
      if rest3.isEmpty && !(ip.isEmpty && fp.isEmpty)
      then some (mkRat (digitsToNat ip * 10 ^ fp.length + digitsToNat fp) (10 ^ fp.length))
      else none
  | _ => none

/-- Model of the JavaScript Number() conversion on strings, covering the
decimal literals that occur in this data: trim whitespace, an empty remainder
is zero, an optional sign followed by a decimal literal parses to its value,
and anything else is NaN (none). -/
def parseJsNumber (s : String) : Option ℚ :=
  let cs := ((s.data.dropWhile isJsSpace).reverse.dropWhile isJsSpace).reverse
  match cs with
  | [] => some 0
  | '-' :: rest => (parseUnsigned rest).map Neg.neg
  | '+' :: rest => parseUnsigned rest
  | _ => parseUnsigned cs

/-- The JavaScript Number() coercion on a JVal. -/
def jsNumber : JVal → JVal
  | jnull => jnum 0
  | jundef => jnan
  | jnan => jnan
  | jnum q => jnum q
  | jstr s =>
      match parseJsNumber s with
      | some q => jnum q
      | none => jnan
  | jobj _ => jnan

/-- buildTooltipHtml from app.js: the compact hover summary. -/
def buildTooltipHtml (p : JVal) : String :=
  "\n    <div class=\"name\">" ++ jsToString (jsOr (jGet p "name") (jstr "Unknown"))
    ++ "</div>\n    <div class=\"row\"><span class=\"label\">Quality</span><span>"
    ++ fmtMaybe (jGet p "qualityScore") ""
    ++ "</span></div>\n    <div class=\"row\"><span class=\"label\">Wave</span><span>"
    ++ fmtMaybe (jGet p "waveHeightFt") " ft"
    ++ "</span></div>\n    <div class=\"row\"><span class=\"label\">Period</span><span>"
    ++ fmtMaybe (jGet p "dominantPeriodS") " s"
    ++ "</span></div>\n    <div class=\"row\"><span class=\"label\">Wind</span><span>"
    ++ fmtMaybe (jGet p "windSpeedMph") " mph"
    ++ "</span></div>\n    <div class=\"row\"><span class=\"label\">Tide</span><span>"
    ++ fmtMaybe (jGet p "tideHeightFt") " ft" ++ " "
    ++ (if truthy (jGet p "tideTrend")
        then "(" ++ jsToString (jGet p "tideTrend") ++ ")" else "")
    ++ "</span></div>\n  "

/-- buildPopupHtml from app.js: the expanded click summary. The rendering of
new Date(x).toUTCString() is host behaviour and is passed in as utc. -/
def buildPopupHtml (utc : JVal → String) (p : JVal) : String :=
  let ndbc := jsOr (jsOr (jGet (jGet p "sources") "ndbcStation") (jGet p "ndbcStation")) (jstr "—")
  let tide := jsOr (jsOr (jGet (jGet p "sources") "tideStation") (jGet p "tideStation")) (jstr "—")
  let windSrc := jsOr (jGet p "windSource") (jstr "—")
  "\n    <div class=\"popup\">\n      <div class=\"popup-title\">"
    ++ jsToString (jsOr (jGet p "name") (jstr "Unknown"))
    ++ "</div>\n      "
    ++ (if truthy (jGet p "region")
        then "<div class=\"popup-subtitle\">" ++ jsToString (jGet p "region") ++ "</div>"
        else "")
    ++ "\n\n      <div class=\"popup-section\">\n        <div class=\"popup-section-title\">Quality</div>\n        <div class=\"popup-row\"><span>Score</span><span>"
    ++ fmtMaybe (jGet p "qualityScore") ""
    ++ " / 100</span></div>\n      </div>\n\n      <div class=\"popup-section\">\n        <div class=\"popup-section-title\">Waves</div>\n        <div class=\"popup-row\"><span>Height</span><span>"
    ++ fmtMaybe (jGet p "waveHeightFt") " ft"
    ++ "</span></div>\n        <div class=\"popup-row\"><span>Period</span><span>"
    ++ fmtMaybe (jGet p "dominantPeriodS") " s"
    ++ "</span></div>\n        <div class=\"popup-row\"><span>Direction</span><span>"
    ++ fmtMaybe (jGet p "waveDirectionDeg") "°"
    ++ "</span></div>\n      </div>\n\n      <div class=\"popup-section\">\n        <div class=\"popup-section-title\">Wind</div>\n        <div class=\"popup-row\"><span>Speed</span><span>"
    ++ fmtMaybe (jGet p "windSpeedMph") " mph"
    ++ "</span></div>\n        <div class=\"popup-row\"><span>Direction</span><span>"
    ++ fmtMaybe (jGet p "windDirectionDeg") "°"
    ++ "</span></div>\n      </div>\n\n      <div class=\"popup-section\">\n        <div class=\"popup-section-title\">Tide</div>\n        <div class=\"popup-row\">\n          <span>Height</span>\n          <span>"
    ++ fmtMaybe (jGet p "tideHeightFt") " ft" ++ " "
    ++ (if truthy (jGet p "tideTrend")
        then "(" ++ jsToString (jGet p "tideTrend") ++ ")" else "")
    ++ "</span>\n        </div>\n      </div>\n\n      <div class=\"popup-section popup-section-meta\">\n        <div class=\"popup-section-title\">Sources</div>\n        <div class=\"popup-row\"><span>NDBC buoy</span><span>"
    ++ jsToString ndbc
    ++ "</span></div>\n        <div class=\"popup-row\"><span>Tide station</span><span>"
    ++ jsToString tide
    ++ "</span></div>\n        <div class=\"popup-row\"><span>Wind source</span><span>"
    ++ jsToString windSrc
    ++ "</span></div>\n        <div class=\"popup-row\">\n          <span>Generated</span>\n          <span>"
    ++ (if truthy (jGet (jGet p "timestamps") "generatedAt")
        then utc (jGet (jGet p "timestamps") "generatedAt") else "—")
    ++ "</span>\n        </div>\n        <div class=\"popup-row\">\n          <span>Buoy obs</span>\n          <span>"
    ++ (if truthy (jGet (jGet p "timestamps") "ndbcObservedAt")
        then utc (jGet (jGet p "timestamps") "ndbcObservedAt") else "—")
    ++ "</span>\n        </div>\n      </div>\n    </div>\n  "

/-- The key list of the numeric-coercion loop in the mousemove handler. -/
def COERCE_KEYS : List String :=
  ["qualityScore", "waveHeightFt", "dominantPeriodS", "windSpeedMph",
   "tideHeightFt", "windSuitability"]

/-- The guard of the coercion loop: the value is skipped when it is strictly
equal to undefined, null or the empty string. -/
def isSkipped : JVal → Bool
  | jundef => true
  | jnull => true
  | jstr s => s == ""
  | jnum _ => false
  | jnan => false
  | jobj _ => false

/-- JavaScript property assignment on an association list: replace the value
when the key is present, append otherwise. -/
def objSet (fs : List (String × JVal)) (k : String) (v : JVal) : List (String × JVal) :=
  if fs.any (fun kv => kv.1 == k)
  then fs.map (fun kv => if kv.1 = k then (k, v) else kv)
  else fs ++ [(k, v)]

/-- One iteration of the coercion loop for key k: skip undefined, null and the
empty string, convert with Number, and assign only when the result is not
NaN. -/
def coerceStep (fs : List (String × JVal)) (k : String) : List (String × JVal) :=
  let v := (fs.lookup k).getD jundef
  if isSkipped v then fs
  else
    match jsNumber v with
    | jnum n => objSet fs k (jnum n)
    | _ => fs

/-- The whole coercion loop of the mousemove handler, applied to a copy of the
property bag. -/
def coerceProps : JVal → JVal
  | jobj fs => jobj (COERCE_KEYS.foldl coerceStep fs)
  | jnull => jnull
  | jundef => jundef
  | jnan => jnan
  | jnum q => jnum q
  | jstr s => jstr s

/-- The effect of the coercion loop on a single value. -/
def coerceEntry (v : JVal) : JVal :=
  if isSkipped v then v
  else
    match jsNumber v with
    | jnum n => jnum n
    | _ => v

/-- An open popup: its anchor coordinates and its HTML content. -/
structure Popup where
  lngLat : ℚ × ℚ
  html : String

/-- Feature geometry: the point coordinates. -/
structure Geometry where
  coordinates : ℚ × ℚ

/-- A rendered feature as delivered to the event handlers. -/
structure Feature where
  geometry : Geometry
  properties : JVal

/-- The interaction state owned by main() in app.js: the tooltip element, the
active popup and the stored popup location id. -/
structure UIState where
  tooltipVisible : Bool
  tooltipHtml : String
  tooltipPos : ℚ × ℚ
  activePopup : Option Popup
  activePopupLocationId : JVal

/-- The interaction state right after startup. -/
def initUIState : UIState :=
  { tooltipVisible := false
    tooltipHtml := ""
    tooltipPos := (0, 0)
    activePopup := none
    activePopupLocationId := jnull }

/-- The property bag of a feature, f.properties with the falsy fallback to an
empty object. -/
def featureProps (f : Feature) : JVal := jsOr f.properties (jobj [])

/-- The suppression condition of the mousemove handler: the stored popup id is
truthy, the hovered id is truthy, and the two are strictly equal. -/
def dedupGuard (st : UIState) (p : JVal) : Bool :=
  truthy st.activePopupLocationId && truthy (jGet p "id")
    && jsEq st.activePopupLocationId (jGet p "id")

/-- The mousemove handler on the point layer: without a hit feature nothing
happens; under the dedup guard the tooltip is hidden; otherwise the tooltip
shows the coerced property bag at the pointer position. -/
def handleMousemove (st : UIState) (feat : Option Feature) (pt : ℚ × ℚ) : UIState :=
  match feat with
  | none => st
  | some f =>
      let p := featureProps f
      if dedupGuard st p then
        { st with tooltipVisible := false }
      else
        { st with tooltipHtml := buildTooltipHtml (coerceProps p)
                  tooltipVisible := true
                  tooltipPos := pt }

/-- The close listener of the active popup: clear the stored id and the popup
reference. -/
def handlePopupClose (st : UIState) : UIState :=
  { st with activePopupLocationId := jnull, activePopup := none }

/-- The click handler on the point layer: remove an existing popup (which
fires its close listener), store the clicked id with the falsy fallback to
null, hide the tooltip, and open a new popup anchored at the clicked
coordinates with the popup HTML of the raw property bag. -/
def handleClick (utc : JVal → String) (st : UIState) (feat : Option Feature) : UIState :=
  match feat with
  | none => st
  | some f =>
      let p := featureProps f
      let st1 := if st.activePopup.isSome then handlePopupClose st else st
      let st2 := { st1 with activePopupLocationId := jsOr (jGet p "id") jnull
                            tooltipVisible := false }
      { st2 with activePopup := some { lngLat := f.geometry.coordinates
                                       html := buildPopupHtml utc p } }

/-- Number of open popups in a state. -/
def openPopupCount (st : UIState) : ℕ :=
  match st.activePopup with
  | some _ => 1
  | none => 0

/-- A JVal that is not an object; strict equality on such values is value
equality (objects compare by reference). -/
def isPrimitive : JVal → Bool
  | jobj _ => false
  | jnull => true
  | jundef => true
  | jnan => true
  | jnum _ => true
  | jstr _ => true

/-- Strict equality is reflexive on truthy primitive values (NaN is falsy, so
it is not a counterexample here). -/
theorem jsEq_refl_of_truthy (v : JVal) (h1 : truthy v = true)
    (h2 : isPrimitive v = true) : jsEq v v = true := by
  cases v <;> simp_all [truthy, isPrimitive, jsEq]

/-- Unfolding lemma for association-list lookup at a cons cell. -/
theorem lookup_cons (k k1 : String) (v1 : JVal) (tl : List (String × JVal)) :
    List.lookup k ((k1, v1) :: tl) = if k = k1 then some v1 else List.lookup k tl := by
  by_cases h : k = k1
  · subst h; simp [List.lookup]
  · simp [List.lookup, beq_eq_false_iff_ne.mpr h, h]

/-- Lookup after replacing every binding of key k. -/
theorem lookup_map_replace (fs : List (String × JVal)) (k : String) (v : JVal) :
    (fs.map (fun kv => if kv.1 = k then (k, v) else kv)).lookup k
      = if fs.any (fun kv => kv.1 == k) then some v else none := by
  induction fs with
  | nil => simp
  | cons hd tl ih =>
      obtain ⟨k1, v1⟩ := hd
      by_cases h : k1 = k
      · subst h
        simp [lookup_cons, List.any_cons]
      · have hb : (k1 == k) = false := beq_eq_false_iff_ne.mpr h
        have h2 : k ≠ k1 := Ne.symm h
        simp only [List.map_cons, List.any_cons, hb, Bool.false_or]
        rw [lookup_cons]
        simp only [if_neg h, if_neg h2]
        exact ih

/-- Lookup after replacing key k does not change other keys. -/
theorem lookup_map_replace_other (fs : List (String × JVal)) (k kx : String)
    (v : JVal) (h : kx ≠ k) :
    (fs.map (fun kv => if kv.1 = k then (k, v) else kv)).lookup kx
      = fs.lookup kx := by
  induction fs with
  | nil => simp
  | cons hd tl ih =>
      obtain ⟨k1, v1⟩ := hd
      simp only [List.map_cons]
      rw [lookup_cons, lookup_cons]
      by_cases h1 : k1 = k
      · subst h1
        simp [h, ih]
      · simp only [if_neg h1]
        by_cases h2 : kx = k1
        · simp [h2]
        · simp only [if_neg h2]
          exact ih

/-- A list with no binding for k looks up to none. -/
theorem lookup_eq_none_of_any_eq_false (fs : List (String × JVal)) (k : String)
    (h : fs.any (fun kv => kv.1 == k) = false) : fs.lookup k = none := by
  induction fs with
  | nil => simp
  | cons hd tl ih =>
      obtain ⟨k1, v1⟩ := hd
      rw [List.any_cons] at h
      have h1 := Bool.or_eq_false_iff.mp h
      have hne : k ≠ k1 := Ne.symm (beq_eq_false_iff_ne.mp h1.1)
      rw [lookup_cons, if_neg hne]
      exact ih h1.2

/-- Appending a binding for k behind a list without one. -/
theorem lookup_append_single (fs : List (String × JVal)) (k : String) (v : JVal)
    (h : fs.lookup k = none) : (fs ++ [(k, v)]).lookup k = some v := by
  induction fs with
  | nil => simp [lookup_cons]
  | cons hd tl ih =>
      obtain ⟨k1, v1⟩ := hd
      rw [lookup_cons] at h
      by_cases hk : k = k1
      · rw [if_pos hk] at h; exact absurd h (by simp)
      · rw [if_neg hk] at h
        rw [List.cons_append, lookup_cons, if_neg hk]
        exact ih h

/-- Appending a binding for k does not change other keys. -/
theorem lookup_append_single_other (fs : List (String × JVal)) (k kx : String)
    (v : JVal) (h : kx ≠ k) :
    (fs ++ [(k, v)]).lookup kx = fs.lookup kx := by
  induction fs with
  | nil => simp [lookup_cons, h]
  | cons hd tl ih =>
      obtain ⟨k1, v1⟩ := hd
      rw [List.cons_append, lookup_cons, lookup_cons]
      by_cases hk : kx = k1
      · simp [hk]
      · simp only [if_neg hk]
        exact ih

/-- JavaScript assignment stores the value at its key. -/
theorem lookup_objSet_self (fs : List (String × JVal)) (k : String) (v : JVal) :
    (objSet fs k v).lookup k = some v := by
  unfold objSet
  by_cases h : fs.any (fun kv => kv.1 == k) = true
  · simp [h, lookup_map_replace]
  · simp only [Bool.not_eq_true] at h
    simp only [h, Bool.false_eq_true, if_false]
    exact lookup_append_single fs k v (lookup_eq_none_of_any_eq_false fs k h)

/-- JavaScript assignment leaves other keys unchanged. -/
theorem lookup_objSet_other (fs : List (String × JVal)) (k kx : String)
    (v : JVal) (h : kx ≠ k) :
    (objSet fs k v).lookup kx = fs.lookup kx := by
  unfold objSet
  by_cases ha : fs.any (fun kv => kv.1 == k) = true
  · simp only [ha, if_true]
    exact lookup_map_replace_other fs k kx v h
  · simp only [Bool.not_eq_true] at ha
    simp only [ha, Bool.false_eq_true, if_false]
    exact lookup_append_single_other fs k kx v h

/-- One coercion iteration leaves other keys unchanged. -/
theorem coerceStep_lookup_other (fs : List (String × JVal)) (k kx : String)
    (h : kx ≠ k) : (coerceStep fs k).lookup kx = fs.lookup kx := by
  unfold coerceStep
  by_cases hs : isSkipped ((fs.lookup k).getD jundef) = true
  · simp [hs]
  · simp only [Bool.not_eq_true] at hs
    simp only [hs, Bool.false_eq_true, if_false]
    cases hn : jsNumber ((fs.lookup k).getD jundef) with
    | jnum n => exact lookup_objSet_other fs k kx (jnum n) h
    | jnull => rfl
    | jundef => rfl
    | jnan => rfl
    | jstr s => rfl
    | jobj fs2 => rfl

/-- One coercion iteration acts as coerceEntry on its own key. -/
theorem coerceStep_lookup_self (fs : List (String × JVal)) (k : String) :
    ((coerceStep fs k).lookup k).getD jundef
      = coerceEntry ((fs.lookup k).getD jundef) := by
  unfold coerceStep coerceEntry
  by_cases hs : isSkipped ((fs.lookup k).getD jundef) = true
  · simp [hs]
  · simp only [Bool.not_eq_true] at hs
    simp only [hs, Bool.false_eq_true, if_false]
    cases hn : jsNumber ((fs.lookup k).getD jundef) <;>
      simp [lookup_objSet_self]

/-- The coercion fold leaves keys outside the list unchanged. -/
theorem foldl_coerce_lookup_notmem :
    ∀ (keys : List String) (fs : List (String × JVal)) (k : String),
      k ∉ keys → (keys.foldl coerceStep fs).lookup k = fs.lookup k := by
  intro keys
  induction keys with
  | nil => intro fs k _; rfl
  | cons k0 rest ih =>
      intro fs k hk
      simp only [List.mem_cons, not_or] at hk
      rw [List.foldl_cons, ih (coerceStep fs k0) k hk.2,
        coerceStep_lookup_other fs k0 k hk.1]

/-- The coercion fold acts as coerceEntry on each key of the list, when the
keys are distinct. -/
theorem foldl_coerce_lookup_mem :
    ∀ (keys : List String) (fs : List (String × JVal)) (k : String),
      keys.Nodup → k ∈ keys →
      ((keys.foldl coerceStep fs).lookup k).getD jundef
        = coerceEntry ((fs.lookup k).getD jundef) := by
  intro keys
  induction keys with
  | nil => intro fs k _ hk; simp at hk
  | cons k0 rest ih =>
      intro fs k hnd hk
      simp only [List.nodup_cons] at hnd
      rcases List.mem_cons.mp hk with rfl | hmem
      · rw [List.foldl_cons, foldl_coerce_lookup_notmem rest (coerceStep fs k) k hnd.1,
          coerceStep_lookup_self]
      · have hne : k ≠ k0 := by
          intro h; subst h; exact hnd.1 hmem
        rw [List.foldl_cons, ih (coerceStep fs k0) k hnd.2 hmem,
          coerceStep_lookup_other fs k0 k hne]

/-- The coercion loop of the mousemove handler acts as coerceEntry on the six
listed metric keys and leaves every other property unchanged. -/
theorem coerceProps_jGet (p : JVal) (k : String) :
    (k ∈ COERCE_KEYS → jGet (coerceProps p) k = coerceEntry (jGet p k))
    ∧ (k ∉ COERCE_KEYS → jGet (coerceProps p) k = jGet p k) := by
  constructor
  · intro hk
    cases p <;> simp [coerceProps, jGet, coerceEntry, isSkipped]
    case jobj fs =>
      exact foldl_coerce_lookup_mem COERCE_KEYS fs k (by decide) hk
  · intro hk
    cases p <;> simp [coerceProps, jGet]
    case jobj fs =>
      rw [foldl_coerce_lookup_notmem COERCE_KEYS fs k hk]

/-- Claim C2: with a popup open on a spot A (a truthy primitive id stored as
the popup location id), a pointer move over A hides the tooltip, while a
pointer move over any spot B whose id is not strictly equal to the id of A
makes the tooltip visible. -/
theorem dedup_invariant : ∀ (st : UIState) (A B : Feature) (pt : ℚ × ℚ),
    st.activePopup.isSome = true →
    truthy (jGet (featureProps A) "id") = true →
    isPrimitive (jGet (featureProps A) "id") = true →
    st.activePopupLocationId = jGet (featureProps A) "id" →
    (handleMousemove st (some A) pt).tooltipVisible = false
    ∧ (jsEq (jGet (featureProps A) "id") (jGet (featureProps B) "id") = false →
        (handleMousemove st (some B) pt).tooltipVisible = true) := by
  intro st A B pt _ htr hprim hid
  constructor
  · have hguard : dedupGuard st (featureProps A) = true := by
      simp [dedupGuard, hid, htr, jsEq_refl_of_truthy _ htr hprim]
    simp [handleMousemove, hguard]
  · intro hne
    have hguard : dedupGuard st (featureProps B) = false := by
      simp [dedupGuard, hid, hne]
    simp [handleMousemove, hguard]

/-- Claim C2 witness: a popup open on a spot with id a, hovered against the
same spot and against a spot with id b. -/
theorem dedup_invariant_witness :
    (handleMousemove
        { tooltipVisible := false, tooltipHtml := "", tooltipPos := (0, 0),
          activePopup := some ⟨(0, 0), "x"⟩, activePopupLocationId := JVal.jstr "a" }
        (some ⟨⟨(0, 0)⟩, JVal.jobj [("id", JVal.jstr "a")]⟩) (0, 0)).tooltipVisible = false
    ∧ (handleMousemove
        { tooltipVisible := false, tooltipHtml := "", tooltipPos := (0, 0),
          activePopup := some ⟨(0, 0), "x"⟩, activePopupLocationId := JVal.jstr "a" }
        (some ⟨⟨(1, 1)⟩, JVal.jobj [("id", JVal.jstr "b")]⟩) (0, 0)).tooltipVisible = true := by
  have h := dedup_invariant
    { tooltipVisible := false, tooltipHtml := "", tooltipPos := (0, 0),
      activePopup := some ⟨(0, 0), "x"⟩, activePopupLocationId := JVal.jstr "a" }
    ⟨⟨(0, 0)⟩, JVal.jobj [("id", JVal.jstr "a")]⟩
    ⟨⟨(1, 1)⟩, JVal.jobj [("id", JVal.jstr "b")]⟩
    (0, 0) rfl rfl rfl rfl
  exact ⟨h.1, h.2 rfl⟩

/-- Claim C3: a click on a rendered point, in every interaction state, leaves
exactly one popup open, anchored at the clicked coordinates with the popup
content, hides the tooltip, and stores the clicked id (with the falsy
fallback to null) as the popup state; after two sequential clicks on A then B
exactly one popup is open and it is anchored at B. -/
theorem single_popup_invariant :
    ∀ (utc : JVal → String) (st : UIState) (f A B : Feature),
    (handleClick utc st (some f)).activePopup
      = some ⟨f.geometry.coordinates, buildPopupHtml utc (featureProps f)⟩
    ∧ (handleClick utc st (some f)).tooltipVisible = false
    ∧ (handleClick utc st (some f)).activePopupLocationId
      = jsOr (jGet (featureProps f) "id") JVal.jnull
    ∧ (truthy (jGet (featureProps f) "id") = true →
        (handleClick utc st (some f)).activePopupLocationId
          = jGet (featureProps f) "id")
    ∧ openPopupCount (handleClick utc st (some f)) = 1
    ∧ openPopupCount (handleClick utc (handleClick utc st (some A)) (some B)) = 1
    ∧ (handleClick utc (handleClick utc st (some A)) (some B)).activePopup
      = some ⟨B.geometry.coordinates, buildPopupHtml utc (featureProps B)⟩ := by
  intro utc st f A B
  refine ⟨rfl, rfl, rfl, ?_, rfl, rfl, rfl⟩
  intro h
  have h3 : (handleClick utc st (some f)).activePopupLocationId
      = jsOr (jGet (featureProps f) "id") JVal.jnull := rfl
  rw [h3, jsOr, if_pos h]

/-- Claim C3 witness: two clicks on concrete spots with ids a and b. -/
theorem single_popup_invariant_witness :
    (handleClick (fun _ => "") (handleClick (fun _ => "") initUIState
        (some ⟨⟨(0, 0)⟩, JVal.jobj [("id", JVal.jstr "a")]⟩))
        (some ⟨⟨(1, 1)⟩, JVal.jobj [("id", JVal.jstr "b")]⟩)).activePopup
      = some ⟨(1, 1), buildPopupHtml (fun _ => "")
          (featureProps ⟨⟨(1, 1)⟩, JVal.jobj [("id", JVal.jstr "b")]⟩)⟩
    ∧ (handleClick (fun _ => "") initUIState
        (some ⟨⟨(0, 0)⟩, JVal.jobj [("id", JVal.jstr "a")]⟩)).activePopupLocationId
      = JVal.jstr "a" := by
  have h := single_popup_invariant (fun _ => "") initUIState
    ⟨⟨(0, 0)⟩, JVal.jobj [("id", JVal.jstr "a")]⟩
    ⟨⟨(0, 0)⟩, JVal.jobj [("id", JVal.jstr "a")]⟩
    ⟨⟨(1, 1)⟩, JVal.jobj [("id", JVal.jstr "b")]⟩
  exact ⟨h.2.2.2.2.2.2, h.2.2.2.1 rfl⟩

/-- Claim C9 counterexample: a popup opened by clicking an id-less spot stores
null as the popup location id (the silent optional-id fallback), but a hover
over a second id-less spot is not deduplicated: the tooltip becomes visible,
contradicting the claimed suppression. -/
theorem idless_dedup_cex :
    (handleClick (fun _ => "") initUIState
        (some ⟨⟨(0, 0)⟩, JVal.jobj [("name", JVal.jstr "A")]⟩)).activePopupLocationId
      = JVal.jnull
    ∧ (handleMousemove
        (handleClick (fun _ => "") initUIState
          (some ⟨⟨(0, 0)⟩, JVal.jobj [("name", JVal.jstr "A")]⟩))
        (some ⟨⟨(1, 1)⟩, JVal.jobj [("name", JVal.jstr "B")]⟩)
        (0, 0)).tooltipVisible = true :=
  ⟨rfl, rfl⟩

/-- Claim C9 amended: the id is indeed optional with a silent falsy fallback
to null, but since the suppression guard requires both the stored id and the
hovered id to be truthy, a popup opened from an id-less point never
suppresses the tooltip of another id-less point: the tooltip is shown. -/
theorem idless_no_dedup :
    ∀ (utc : JVal → String) (st : UIState) (A B : Feature) (pt : ℚ × ℚ),
    truthy (jGet (featureProps A) "id") = false →
    truthy (jGet (featureProps B) "id") = false →
    (handleClick utc st (some A)).activePopupLocationId = JVal.jnull
    ∧ (handleMousemove (handleClick utc st (some A)) (some B) pt).tooltipVisible
      = true := by
  intro utc st A B pt hA hB
  have h1 : (handleClick utc st (some A)).activePopupLocationId
      = jsOr (jGet (featureProps A) "id") JVal.jnull := rfl
  have h2 : (handleClick utc st (some A)).activePopupLocationId = JVal.jnull := by
    rw [h1, jsOr, if_neg (by simp [hA])]
  refine ⟨h2, ?_⟩
  have hguard : dedupGuard (handleClick utc st (some A)) (featureProps B) = false := by
    simp [dedupGuard, h2, truthy]
  simp [handleMousemove, hguard]

/-- Claim C9 amended witness: two concrete id-less spots. -/
theorem idless_no_dedup_witness :
    (handleClick (fun _ => "") initUIState
        (some ⟨⟨(0, 0)⟩, JVal.jobj []⟩)).activePopupLocationId = JVal.jnull
    ∧ (handleMousemove
        (handleClick (fun _ => "") initUIState (some ⟨⟨(0, 0)⟩, JVal.jobj []⟩))
        (some ⟨⟨(1, 1)⟩, JVal.jobj []⟩) (0, 0)).tooltipVisible = true :=
  idless_no_dedup (fun _ => "") initUIState
    ⟨⟨(0, 0)⟩, JVal.jobj []⟩ ⟨⟨(1, 1)⟩, JVal.jobj []⟩ (0, 0) rfl rfl

/-- Claim C6 counterexample: the click handler hands the raw property bag to
the popup formatter; on a bag whose qualityScore is the string with a spaced
digit, the popup HTML differs from the popup HTML of the coerced bag, so the
popup formatter does not receive coerced values. -/
theorem popup_uncoerced_cex :
    Option.map Popup.html
        ((handleClick (fun _ => "") initUIState
          (some ⟨⟨(0, 0)⟩,
            JVal.jobj [("name", JVal.jstr "Ocean Beach"),
                       ("qualityScore", JVal.jstr " 3 ")]⟩)).activePopup)
      = some (buildPopupHtml (fun _ => "")
          (JVal.jobj [("name", JVal.jstr "Ocean Beach"),
                      ("qualityScore", JVal.jstr " 3 ")]))
    ∧ buildPopupHtml (fun _ => "")
        (JVal.jobj [("name", JVal.jstr "Ocean Beach"),
                    ("qualityScore", JVal.jstr " 3 ")])
      ≠ buildPopupHtml (fun _ => "")
        (coerceProps (JVal.jobj [("name", JVal.jstr "Ocean Beach"),
                                 ("qualityScore", JVal.jstr " 3 ")])) :=
  ⟨rfl, by decide⟩

/-- Numeric payload of a JVal, when it is a number. -/
def numOf : JVal → Option ℚ
  | jnum q => some q
  | jnull => none
  | jundef => none
  | jnan => none
  | jstr _ => none
  | jobj _ => none

/-- Claim C6 amended: only the tooltip path coerces. The mousemove handler
formats the coerced property bag, on which each of the six listed metric keys
holds the Number conversion of a numeric-looking value, while the click
handler passes the raw, uncoerced bag to the popup formatter. -/
theorem coercion_paths :
    ∀ (st : UIState) (f : Feature) (pt : ℚ × ℚ) (utc : JVal → String) (k : String),
    (dedupGuard st (featureProps f) = false →
      (handleMousemove st (some f) pt).tooltipHtml
        = buildTooltipHtml (coerceProps (featureProps f)))
    ∧ Option.map Popup.html (handleClick utc st (some f)).activePopup
      = some (buildPopupHtml utc (featureProps f))
    ∧ (k ∈ COERCE_KEYS →
        jGet (coerceProps (featureProps f)) k = coerceEntry (jGet (featureProps f) k))
    ∧ (k ∉ COERCE_KEYS →
        jGet (coerceProps (featureProps f)) k = jGet (featureProps f) k)
    ∧ numOf (coerceEntry (JVal.jstr "3.2")) = some (mkRat 32 10) := by
  intro st f pt utc k
  refine ⟨?_, rfl, (coerceProps_jGet (featureProps f) k).1,
    (coerceProps_jGet (featureProps f) k).2, by decide⟩
  intro hguard
  simp [handleMousemove, hguard]

/-- Claim C6 amended witness: concrete instantiation with qualityScore held
as a numeric-looking string. -/
theorem coercion_paths_witness :
    (handleMousemove initUIState
        (some ⟨⟨(0, 0)⟩, JVal.jobj [("qualityScore", JVal.jstr "3.2")]⟩)
        (0, 0)).tooltipHtml
      = buildTooltipHtml (coerceProps
          (featureProps ⟨⟨(0, 0)⟩, JVal.jobj [("qualityScore", JVal.jstr "3.2")]⟩))
    ∧ jGet (coerceProps
          (featureProps ⟨⟨(0, 0)⟩, JVal.jobj [("qualityScore", JVal.jstr "3.2")]⟩))
        "qualityScore"
      = coerceEntry (jGet
          (featureProps ⟨⟨(0, 0)⟩, JVal.jobj [("qualityScore", JVal.jstr "3.2")]⟩)
          "qualityScore") := by
  have h := coercion_paths initUIState
    ⟨⟨(0, 0)⟩, JVal.jobj [("qualityScore", JVal.jstr "3.2")]⟩
    (0, 0) (fun _ => "") "qualityScore"
  exact ⟨h.1 rfl, h.2.2.1 (by decide)⟩

/-- Claim C10: a metric field holding the empty string is skipped by the
numeric coercion of the tooltip path, and the formatting helper, for which
the empty string is neither null, undefined nor NaN, renders it as empty
text followed by the unit suffix, not as the placeholder glyph and not as a
number. -/
theorem empty_string_skip :
    ∀ (p : JVal) (k sfx : String),
    k ∈ COERCE_KEYS → jGet p k = JVal.jstr "" →
    jGet (coerceProps p) k = JVal.jstr ""
    ∧ fmtMaybe (jGet p k) sfx = "" ++ sfx
    ∧ isMissingVal (JVal.jstr "") = false
    ∧ fmtMaybe (JVal.jstr "") " ft" = " ft"
    ∧ fmtMaybe (JVal.jstr "") " ft" ≠ "—" := by
  intro p k sfx hk hv
  refine ⟨?_, ?_, rfl, by decide, by decide⟩
  · rw [(coerceProps_jGet p k).1 hk, hv]
    rfl
  · rw [hv]
    rfl

/-- Claim C10 witness: concrete property bag with an empty-string wave
height. -/
theorem empty_string_skip_witness :
    jGet (coerceProps (JVal.jobj [("waveHeightFt", JVal.jstr "")])) "waveHeightFt"
      = JVal.jstr ""
    ∧ fmtMaybe (jGet (JVal.jobj [("waveHeightFt", JVal.jstr "")]) "waveHeightFt") " ft"
      = "" ++ " ft" := by
  have h := empty_string_skip (JVal.jobj [("waveHeightFt", JVal.jstr "")])
    "waveHeightFt" " ft" (by decide) rfl
  exact ⟨h.1, h.2.1⟩

/-- Camera state of the map: center, zoom, the permanent pan bounds and the
zoom clamp. -/
structure Camera where
  center : ℚ × ℚ
  zoom : ℚ
  maxBounds : Option ((ℚ × ℚ) × (ℚ × ℚ))
  minZoom : Option ℚ
  maxZoom : Option ℚ

/-- Application state owned by main(): camera, active metric, interaction
state, status text, the beachesGeojson variable, and the content of the map
data source (none while the source has not been added). -/
structure AppState where
  camera : Camera
  activeMetric : String
  ui : UIState
  statusText : String
  beachesGeojson : Option JVal
  sourceData : Option JVal

/-- loadDataAndRefreshSource from app.js. The two fetch outcomes are inputs:
none models a rejected fetch. The summary part sets the status text, falling
back to the unknown placeholder when the fetch failed or generatedAt is
falsy (toLocaleString rendering is host behaviour, passed as locale). A
failed point-collection fetch then aborts the invocation (false as second
component) with the status already updated; on success the beachesGeojson
variable is replaced and, when the source exists, its data is swapped. -/
def loadDataAndRefreshSource (locale : JVal → String)
    (summaryResult : Option JVal) (geojsonResult : Option JVal)
    (st : AppState) : AppState × Bool :=
  let st1 :=
    match summaryResult with
    | some summary =>
        if truthy (jGet summary "generatedAt")
        then { st with statusText := "Updated: " ++ locale (jGet summary "generatedAt") }
        else { st with statusText := "Updated: —" }
    | none => { st with statusText := "Updated: —" }
  match geojsonResult with
  | none => (st1, false)
  | some g =>
      let st2 := { st1 with beachesGeojson := some g }
      match st2.sourceData with
      | some _ => ({ st2 with sourceData := some g }, true)
      | none => (st2, true)

/-- Claim C4: every invocation of the refresh operation leaves the camera
(center, zoom, pan bounds, zoom clamp), the active metric and the whole
interaction state (hover and popup) unchanged; its effects are confined to
the status text, the stored collection and the data-source content. -/
theorem refresh_frame_condition :
    ∀ (locale : JVal → String) (sres gres : Option JVal) (st : AppState),
    (loadDataAndRefreshSource locale sres gres st).1.camera = st.camera
    ∧ (loadDataAndRefreshSource locale sres gres st).1.activeMetric = st.activeMetric
    ∧ (loadDataAndRefreshSource locale sres gres st).1.ui = st.ui := by
  intro locale sres gres st
  cases sres with
  | none =>
      cases gres with
      | none => exact ⟨rfl, rfl, rfl⟩
      | some g =>
          cases hs : st.sourceData <;>
            simp [loadDataAndRefreshSource, hs]
  | some summary =>
      cases gres with
      | none =>
          by_cases ht : truthy (jGet summary "generatedAt") = true <;>
            simp [loadDataAndRefreshSource, ht]
      | some g =>
          by_cases ht : truthy (jGet summary "generatedAt") = true <;>
            cases hs : st.sourceData <;>
              simp [loadDataAndRefreshSource, ht, hs]

/-- Claim C5: when the summary fetch fails but the point-collection fetch
succeeds (with the source present), the collection is still applied to the
data source, the invocation completes, and the status text shows the unknown
placeholder. -/
theorem summary_failure_tolerance :
    ∀ (locale : JVal → String) (g : JVal) (st : AppState),
    st.sourceData.isSome = true →
    (loadDataAndRefreshSource locale none (some g) st).1.statusText = "Updated: —"
    ∧ (loadDataAndRefreshSource locale none (some g) st).1.sourceData = some g
    ∧ (loadDataAndRefreshSource locale none (some g) st).1.beachesGeojson = some g
    ∧ (loadDataAndRefreshSource locale none (some g) st).2 = true := by
  intro locale g st h
  obtain ⟨d, hd⟩ := Option.isSome_iff_exists.mp h
  simp [loadDataAndRefreshSource, hd]

/-- Claim C5 witness: a concrete state with a loaded source. -/
theorem summary_failure_tolerance_witness :
    (loadDataAndRefreshSource (fun _ => "") none (some (JVal.jobj []))
        { camera := ⟨(0, 0), 9, none, none, none⟩, activeMetric := "qualityScore",
          ui := initUIState, statusText := "s", beachesGeojson := none,
          sourceData := some (JVal.jobj []) }).1.statusText = "Updated: —"
    ∧ (loadDataAndRefreshSource (fun _ => "") none (some (JVal.jobj []))
        { camera := ⟨(0, 0), 9, none, none, none⟩, activeMetric := "qualityScore",
          ui := initUIState, statusText := "s", beachesGeojson := none,
          sourceData := some (JVal.jobj []) }).1.sourceData = some (JVal.jobj []) := by
  have h := summary_failure_tolerance (fun _ => "") (JVal.jobj [])
    { camera := ⟨(0, 0), 9, none, none, none⟩, activeMetric := "qualityScore",
      ui := initUIState, statusText := "s", beachesGeojson := none,
      sourceData := some (JVal.jobj []) } rfl
  exact ⟨h.1, h.2.1⟩

end SurfMap
